import Mathlib

/-!
Shallow embedding of `relevec.py` (module `relevec`), the sparse-vector /
dimension-schema registry library, together with theorems settling the
frozen claims about it.

Embedding conventions, chosen once and applied throughout:

* Python exceptions are modelled by the inductive `Err`.  A raise of a
  builtin exception (AssertionError from a failed assert, ValueError,
  KeyError, IndexError, TypeError) maps to the matching constructor.  The
  source's inner exception classes, however, are referenced by bare name
  from staticmethods of `ReleVec`; Python class-body names are not in scope
  inside the class's methods and none of those classes is a module global,
  so each such raise statement — like the reads of the stale `MatchVecBase`
  and the unqualified call of `equality_threshold` — actually raises
  `NameError: name '...' is not defined` at the name lookup.  All these
  failures are modelled by `Err.nameErrorUndefined` carrying the missing
  name; the intended typed exceptions are never constructed at runtime and
  therefore have no `Err` constructor.
* Python `float` values are modelled by `PyFloat`: an exact rational for
  finite values plus `nan` / `inf` / `ninf`.  No claim depends on rounding:
  the only float arithmetic the claims reach is discarded before use (see
  `normalize`), and all other operations merely store and retrieve values.
* Python `dict`s are modelled by insertion-ordered association lists
  (`dictGet` / `dictSet` mirror lookup and `d[k] = v`, which updates in place
  or appends).
* The runtime-created subclasses of `ReleVec` (via `type(...)`) are modelled
  by the value type `RVClass`: `base` is class `ReleVec` itself, `plain` an
  unembellished subclass, `limited` a subclass of `_SV_LimitedIdxBase`
  (carrying the raw value stored into `_dimidx_ct`), `named` a subclass of
  `_SV_NamedDimBase` (carrying `_dim_registry`; its `_dimidx_ct` equals the
  registry's length by construction in the source).
* Character classes (`str.islower` / `isupper` / `isdigit`) are modelled by
  their ASCII behaviour (`isLowerA`, `isUpperA`, `isDigitA`), on which the
  Python methods agree.
-/

deriving instance DecidableEq for Except

namespace Relevec

/-- Python exceptions observable from `relevec.py`: the builtin exceptions
its raise statements and failing asserts produce, and the `NameError`s the
interpreter raises where the source dereferences an unbound name —
including every raise of one of its own inner exception classes
(`SvInstanceDictError`, `SvSubclassNameConventionError`,
`SvSubclassNameInUse`, `SvNonSubclassGlobalNameInUse`), which are
referenced by bare name from staticmethods where they are not in scope, so
those typed exceptions are never actually constructed. -/
inductive Err where
  | assertionError
  | valueError
  | keyError
  | indexError
  | attributeError
  | typeErrorDyn
  | nameErrorUndefined (missing : String)
deriving DecidableEq, Repr

/-- A Python float: exact finite value, or one of the non-finite floats.
`0.01` etc. are represented by the rational the literal denotes; no claim
performs rounding-sensitive arithmetic on them. -/
inductive PyFloat where
  | finite (q : ℚ)
  | nan
  | inf
  | ninf
deriving DecidableEq, Repr

/-- A dimension key as it appears in a `dimdict`: an int index or a str name. -/
inductive DKey where
  | ki (i : Int)
  | ks (s : String)
deriving DecidableEq, Repr

/-- A value stored in a serialized schema record (`substruct_dict`):
an int (under `dim_ct`) or a list of strings (under `dim_names`). -/
inductive SVal where
  | vint (n : Int)
  | vstrs (l : List String)
deriving DecidableEq, Repr

/-- Python dict lookup `d.get(k)` over an insertion-ordered association list. -/
def dictGet {α β : Type} [DecidableEq α] (d : List (α × β)) (k : α) : Option β :=
  match d with
  | [] => none
  | (k0, v0) :: rest => if k0 = k then some v0 else dictGet rest k

/-- Python dict store `d[k] = v`: updates the existing entry in place
(keeping its position) or appends a new one, as Python 3.7+ dicts do. -/
def dictSet {α β : Type} [DecidableEq α] (d : List (α × β)) (k : α) (v : β) :
    List (α × β) :=
  match d with
  | [] => [(k, v)]
  | (k0, v0) :: rest =>
      if k0 = k then (k0, v) :: rest else (k0, v0) :: dictSet rest k v

/-- The runtime classes of the module: `ReleVec` itself and the three kinds
of subclass `type(name, (base,), attrs)` can create. -/
inductive RVClass where
  | base
  | plain (name : String)
  | limited (name : String) (dimidx_ct : SVal)
  | named (name : String) (dim_registry : List (String × Nat))
deriving DecidableEq, Repr

/-- `type(cls).__name__` of an instance's class. -/
def className : RVClass → String
  | .base => "ReleVec"
  | .plain n => n
  | .limited n _ => n
  | .named n _ => n

/-- The registry `ReleVec._exportable_subclasses`: name -> created subclass. -/
def Registry : Type := List (String × RVClass)

/-- An instance's `sparse_vec` dict: dimidx -> dimval. -/
def SparseVec : Type := List (Int × PyFloat)

/-- ASCII `str.isupper` for a single character. -/
def isUpperA (c : Char) : Bool := 65 ≤ c.toNat && c.toNat ≤ 90

/-- ASCII `str.islower` for a single character. -/
def isLowerA (c : Char) : Bool := 97 ≤ c.toNat && c.toNat ≤ 122

/-- ASCII `str.isdigit` for a single character. -/
def isDigitA (c : Char) : Bool := 48 ≤ c.toNat && c.toNat ≤ 57

/-- `ReleVec.is_valid_dimidx` / `_SV_LimitedIdxBase.is_valid_dimidx`,
dispatched on the instance's class.  The `assert isinstance(dimidx, int)`
holds by the model's typing of `dimidx`.  For the base class and plain
subclasses the only restriction is non-negativity; for limited and named
subclasses the index must also be below `_dimidx_ct` (`and` short-circuits,
so a negative index returns `False` even when `_dimidx_ct` was set to a
non-int, in which case a non-negative index raises `TypeError` at the
`<` comparison). -/
def is_valid_dimidx (c : RVClass) (dimidx : Int) : Except Err Bool :=
  match c with
  | .base | .plain _ => .ok (decide (0 ≤ dimidx))
  | .limited _ (SVal.vint ct) => .ok (decide (0 ≤ dimidx) && decide (dimidx < ct))
  | .limited _ (SVal.vstrs _) =>
      if 0 ≤ dimidx then .error .typeErrorDyn else .ok false
  | .named _ reg =>
      .ok (decide (0 ≤ dimidx) && decide (dimidx < (reg.length : Int)))

/-- `ReleVec.get_dimval_by_dimidx`: assert validity, then dict lookup with
`0.00` for an omitted dimidx. -/
def get_dimval_by_dimidx (c : RVClass) (sv : SparseVec) (dimidx : Int) :
    Except Err PyFloat :=
  match is_valid_dimidx c dimidx with
  | .error e => .error e
  | .ok b =>
      if b then .ok ((dictGet sv dimidx).getD (PyFloat.finite 0))
      else .error .assertionError

/-- `ReleVec.set_dimval_by_dimidx`: assert validity, assert the value is a
float (which every `PyFloat` is, finite or not), then store. -/
def set_dimval_by_dimidx (c : RVClass) (sv : SparseVec) (dimidx : Int)
    (dimval : PyFloat) : Except Err SparseVec :=
  match is_valid_dimidx c dimidx with
  | .error e => .error e
  | .ok b =>
      if b then .ok (dictSet sv dimidx dimval)
      else .error .assertionError

/-- `_SV_NamedDimBase.get_dimval_by_dimnam`: resolve the name through
`_dim_registry` (`KeyError` becomes `ValueError`), then read by index.
Only named subclasses have this method. -/
def get_dimval_by_dimnam (c : RVClass) (sv : SparseVec) (dimnam : String) :
    Except Err PyFloat :=
  match c with
  | .named _ reg =>
      match dictGet reg dimnam with
      | some dimidx => get_dimval_by_dimidx c sv (dimidx : Int)
      | none => .error .valueError
  | _ => .error .attributeError

/-- `_SV_NamedDimBase.set_dimval_by_dimnam`. -/
def set_dimval_by_dimnam (c : RVClass) (sv : SparseVec) (dimnam : String)
    (dimval : PyFloat) : Except Err SparseVec :=
  match c with
  | .named _ reg =>
      match dictGet reg dimnam with
      | some dimidx => set_dimval_by_dimidx c sv (dimidx : Int) dimval
      | none => .error .valueError
  | _ => .error .attributeError

/-- Loop body of `ReleVec.set_vec_by_dim_tuples` (all keys must be ints:
`is_valid_dimidx` asserts `isinstance(dimidx, int)`, so a str key fails that
assert).  The two-element-tuple assert holds by the pair type. -/
def base_set_loop (c : RVClass) :
    List (DKey × PyFloat) → SparseVec → Except Err SparseVec
  | [], sv => .ok sv
  | (DKey.ki i, v) :: rest, sv =>
      match set_dimval_by_dimidx c sv i v with
      | .error e => .error e
      | .ok sv1 => base_set_loop c rest sv1
  | (DKey.ks _, _) :: _, _ => .error .assertionError

/-- Loop body of the str-keyed branch of
`_SV_NamedDimBase.set_vec_by_dim_tuples`: every key must be a str
(`assert isinstance(dim_tuple[0], str)`), resolved by name. -/
def named_set_loop (c : RVClass) :
    List (DKey × PyFloat) → SparseVec → Except Err SparseVec
  | [], sv => .ok sv
  | (DKey.ks nm, v) :: rest, sv =>
      match set_dimval_by_dimnam c sv nm v with
      | .error e => .error e
      | .ok sv1 => named_set_loop c rest sv1
  | (DKey.ki _, _) :: _, _ => .error .assertionError

/-- `set_vec_by_dim_tuples`, dispatched on the instance's class (the named
override inspects the first key's type; an int first key defers to the base
implementation; the base implementation and its inheritors only accept int
keys).  The `strict` parameter is always `False` in the source's calls, so
its assert passes and is omitted.  The vector is cleared before setting. -/
def set_vec_by_dim_tuples (c : RVClass) (dim_tuples : List (DKey × PyFloat)) :
    Except Err SparseVec :=
  match c with
  | RVClass.named _ _ =>
      match dim_tuples with
      | [] => .ok []
      | (DKey.ks _, _) :: _ => named_set_loop c dim_tuples []
      | (DKey.ki _, _) :: _ => base_set_loop c dim_tuples []
  | _ => base_set_loop c dim_tuples []

/-- `set_vec_by_dimdict`: `list(dimdict.items())` fed to the tuple setter. -/
def set_vec_by_dimdict (c : RVClass) (dimdict : List (DKey × PyFloat)) :
    Except Err SparseVec :=
  set_vec_by_dim_tuples c dimdict

/-- Idealized squaring of a Python float (`dimval**2`). -/
def PyFloat.sq : PyFloat → PyFloat
  | .finite q => .finite (q * q)
  | .nan => .nan
  | .inf => .inf
  | .ninf => .inf

/-- Idealized addition of Python floats (IEEE special-value rules). -/
def PyFloat.add : PyFloat → PyFloat → PyFloat
  | .nan, _ => .nan
  | _, .nan => .nan
  | .inf, .ninf => .nan
  | .ninf, .inf => .nan
  | .inf, _ => .inf
  | _, .inf => .inf
  | .ninf, _ => .ninf
  | _, .ninf => .ninf
  | .finite a, .finite b => .finite (a + b)

/-- `ReleVec.get_magnitude_squared`: sum of squares of all present values. -/
def get_magnitude_squared (sv : SparseVec) : PyFloat :=
  sv.foldl (fun acc p => PyFloat.add acc p.2.sq) (PyFloat.finite 0)

/-- `ReleVec.equality_threshold` (as invoked qualified, e.g.
`ReleVec.equality_threshold(...)`): its body reads `MatchVecBase._eps`, but
no name `MatchVecBase` is bound anywhere in the module (the epsilon
actually lives on `ReleVec._eps`), so every call raises `NameError`. -/
def equality_threshold (_val1 _val2 : PyFloat) : Except Err Bool :=
  .error (Err.nameErrorUndefined "MatchVecBase")

/-- `ReleVec.normalize`: computes `magnitude_squared` (a pure expression),
then compares it against `MatchVecBase._eps`; since `MatchVecBase` is bound
nowhere in the module, the comparison raises `NameError` before any branch
of the intended zero-magnitude / already-normalized / divide logic runs. -/
def normalize (sv : SparseVec) : Except Err SparseVec :=
  let _magnitude_squared := get_magnitude_squared sv
  .error (Err.nameErrorUndefined "MatchVecBase")

/-- `ReleVec.is_normalized`: calls `equality_threshold` by bare name.  The
callable expression is evaluated before its arguments, and no module global
`equality_threshold` exists (the classmethod is not in scope unqualified),
so the call raises `NameError` for the name `equality_threshold` itself —
before `get_magnitude_squared` is even computed. -/
def is_normalized (_sv : SparseVec) : Except Err Bool :=
  .error (Err.nameErrorUndefined "equality_threshold")

/-- `ReleVec.reject_bad_subclass_name` on the name's characters.  The source
tests, in order: empty, first char lowercase, first char digit, first char
uppercase (accept), first char `_` with an uppercase second char (accept),
else reject.  (The source guards the underscore branch with
`len(name) > 1`; matching on the tail realizes the same test.)  The
`isinstance(name, str)` check holds by the model's typing.  Every rejecting
branch executes `raise SvSubclassNameConventionError(...)`, and that inner
class is unbound from the staticmethod's scope, so what each rejection
actually raises is `NameError` for the missing name
`SvSubclassNameConventionError` — the intended name-convention exception is
never constructed. -/
def reject_bad_name_chars : List Char → Except Err Unit
  | [] => .error (Err.nameErrorUndefined "SvSubclassNameConventionError")
  | c0 :: rest =>
      if isLowerA c0 then
        .error (Err.nameErrorUndefined "SvSubclassNameConventionError")
      else if isDigitA c0 then
        .error (Err.nameErrorUndefined "SvSubclassNameConventionError")
      else if isUpperA c0 then .ok ()
      else
        match rest with
        | c1 :: _ =>
            if c0 = '_' then
              if isUpperA c1 then .ok ()
              else .error (Err.nameErrorUndefined "SvSubclassNameConventionError")
            else .error (Err.nameErrorUndefined "SvSubclassNameConventionError")
        | [] => .error (Err.nameErrorUndefined "SvSubclassNameConventionError")

/-- `ReleVec.reject_bad_subclass_name`. -/
def reject_bad_subclass_name (name : String) : Except Err Unit :=
  reject_bad_name_chars name.toList

/-- The module-level global names of `relevec.py` after module
initialization, as consulted by `name in globals()` (imports, module
classes and functions, module constants, and the interpreter-provided
module attributes). -/
def moduleGlobals : List String :=
  ["sys", "typing", "math", "ReleVecCustomException", "ReleVec",
   "_SV_LimitedIdxBase", "_SV_NamedDimBase", "_perform_module_monkeypatching",
   "min_req_py_ver",
   "__name__", "__doc__", "__package__", "__loader__", "__spec__",
   "__builtins__", "__file__", "__cached__"]

/-- `ReleVec.reject_unavailable_subclass_name`: registry first, then the
module's global namespace.  Both raise statements reference their inner
exception classes (`SvSubclassNameInUse`, `SvNonSubclassGlobalNameInUse`)
by bare name from the staticmethod, where they are unbound, so each branch
actually raises `NameError` for that missing name. -/
def reject_unavailable_subclass_name (reg : Registry) (name : String) :
    Except Err Unit :=
  if (dictGet reg name).isSome then
    .error (Err.nameErrorUndefined "SvSubclassNameInUse")
  else if moduleGlobals.contains name then
    .error (Err.nameErrorUndefined "SvNonSubclassGlobalNameInUse")
  else .ok ()

/-- `ReleVec.get_subclass_by_name`: registry lookup; on `KeyError` the
literal name "ReleVec" yields the base class itself; any other unknown name
yields `None` (the rejection call in that branch is commented out in the
source).  The `issubclass` assert on a found entry holds because every
registry value is an `RVClass`, i.e. a class created from a `ReleVec` base. -/
def get_subclass_by_name (reg : Registry) (class_name : String) :
    Option RVClass :=
  match dictGet reg class_name with
  | some c => some c
  | none => if class_name = "ReleVec" then some RVClass.base else none

/-- The `dim_reg` construction loop shared by `get_specified_subclass` and
`import_substruct_dict`: `for dimidx, dimnam in enumerate(dim_names)`, with
an assert that each name is a str (holds by typing) and an assert that no
name repeats. -/
def build_dim_reg_loop :
    List String → Nat → List (String × Nat) → Except Err (List (String × Nat))
  | [], _, acc => .ok acc
  | nm :: rest, i, acc =>
      if (dictGet acc nm).isSome then .error .assertionError
      else build_dim_reg_loop rest (i + 1) (dictSet acc nm i)

def build_dim_reg (dim_names : List String) : Except Err (List (String × Nat)) :=
  build_dim_reg_loop dim_names 0 []

/-- `ReleVec.get_specified_subclass` (monkeypatched in): look the name up
first ("ReleVec" resolves to the base class), validate the name format on
every call, return an existing class as is (no shape re-check), otherwise
create and register the subclass — `dim_names` is consulted before `dim_ct`,
and when neither is supplied an unembellished subclass is created.  Returns
the class and the updated registry. -/
def get_specified_subclass (reg : Registry) (class_name : String)
    (dim_names : Option (List String)) (dim_ct : Option SVal) :
    Except Err (RVClass × Registry) :=
  let a_class := get_subclass_by_name reg class_name
  match reject_bad_subclass_name class_name with
  | .error e => .error e
  | .ok () =>
      match a_class with
      | some c => .ok (c, reg)
      | none =>
          match dim_names with
          | some names =>
              match build_dim_reg names with
              | .error e => .error e
              | .ok dim_reg =>
                  let c := RVClass.named class_name dim_reg
                  .ok (c, dictSet reg class_name c)
          | none =>
              match dim_ct with
              | some ct =>
                  let c := RVClass.limited class_name ct
                  .ok (c, dictSet reg class_name c)
              | none =>
                  let c := RVClass.plain class_name
                  .ok (c, dictSet reg class_name c)

/-- A serialized instance record, as produced by `export_dict` and consumed
by `import_dict`: the values found under the keys `class_name` and
`dimdict` (`none` when the key is absent; a record whose `class_name` holds
a non-str value is rejected by the name-format check's `isinstance` test
just like an absent one, so the model folds those into `none`). -/
structure InstanceDict where
  class_name : Option String
  dimdict : Option (List (DKey × PyFloat))
deriving DecidableEq, Repr

/-- The entry-accumulation loop of `_SV_NamedDimBase.export_dict`:
`dimnam_list[dimidx]` indexes the `list(self._dim_registry.items())`
positionally (with Python's negative-index wrap-around), asserts the
registry is position-sorted, and stores the value under the dimension's
name. -/
def named_export_entries (reg : List (String × Nat)) :
    SparseVec → List (DKey × PyFloat) → Except Err (List (DKey × PyFloat))
  | [], dimdict => .ok dimdict
  | (dimidx, dimval) :: rest, dimdict =>
      let j : Int := if dimidx < 0 then dimidx + (reg.length : Int) else dimidx
      if j < 0 then .error .indexError
      else
        match reg.get? j.toNat with
        | none => .error .indexError
        | some entry =>
            if (entry.2 : Int) = dimidx then
              named_export_entries reg rest
                (dictSet dimdict (DKey.ks entry.1) dimval)
            else .error .assertionError

/-- `export_dict`, dispatched on the instance's class: the base version
serializes the sparse vector under its int keys; the named override
translates each index to its name. -/
def export_dict (c : RVClass) (sv : SparseVec) : Except Err InstanceDict :=
  match c with
  | RVClass.named nm reg =>
      match named_export_entries reg sv [] with
      | .error e => .error e
      | .ok dd => .ok ⟨some nm, some dd⟩
  | _ => .ok ⟨some (className c), some (sv.map (fun p => (DKey.ki p.1, p.2)))⟩

/-- `ReleVec.reject_bad_instance_dict`: the `isinstance(instance_dict, dict)`
check holds by the model type; the name under `class_name` is validated
(an absent or non-str `class_name` takes the validator's not-a-str
rejection path, whose raise is the unbound `SvSubclassNameConventionError`,
hence `NameError` for that name); then the source fetches `dimdict` but
tests `isinstance(class_name, dict)` — `class_name`, which at that point is
known to be a str — instead of `dimdict`, so the guard is always true and
the raise statement always executes.  That raise references the unbound
inner class `SvInstanceDictError`, so what propagates is `NameError` for
the missing name `SvInstanceDictError`. -/
def reject_bad_instance_dict (d : InstanceDict) : Except Err Unit :=
  match d.class_name with
  | none => .error (Err.nameErrorUndefined "SvSubclassNameConventionError")
  | some nm =>
      match reject_bad_subclass_name nm with
      | .error e => .error e
      | .ok () => .error (Err.nameErrorUndefined "SvInstanceDictError")

/-- `ReleVec.import_dict`: validate the record, then rebuild `sparse_vec`
from its `dimdict` (a missing `dimdict` key would raise `KeyError` at the
subscript).  Returns the new `sparse_vec`. -/
def import_dict (c : RVClass) (d : InstanceDict) : Except Err SparseVec :=
  match reject_bad_instance_dict d with
  | .error e => .error e
  | .ok () =>
      match d.dimdict with
      | some dd => set_vec_by_dimdict c dd
      | none => .error .keyError

/-- A serialized schema record (`substruct_dict`): dict from field name to
value, e.g. the `dim_ct` of a limited subclass or the `dim_names` of a
named one. -/
def SRecord : Type := List (String × SVal)

/-- `export_substruct_dict`, dispatched on the class: nothing for the base
class and plain subclasses, `dim_ct` for limited subclasses, `dim_names`
(the registry's keys, in order) for named subclasses. -/
def export_substruct_dict (c : RVClass) : SRecord :=
  match c with
  | RVClass.base | RVClass.plain _ => []
  | RVClass.limited _ ct => [("dim_ct", ct)]
  | RVClass.named _ reg => [("dim_names", SVal.vstrs (reg.map (fun p => p.1)))]

/-- `ReleVec.export_subclasses_dict`: every registered subclass through its
`export_substruct_dict`. -/
def export_subclasses_dict (reg : Registry) : List (String × SRecord) :=
  reg.map (fun p => (p.1, export_substruct_dict p.2))

/-- `ReleVec.import_substruct_dict` (monkeypatched in): requires the name to
be available and well-formed, then builds the subclass from the record —
`dim_names` is consulted before `dim_ct` (an int found under `dim_names`
makes the source's `enumerate` raise `TypeError`; a value found under
`dim_ct` is stored as `_dimidx_ct` without any type check), and an empty
record yields an unembellished subclass.  Returns the class and the updated
registry. -/
def import_substruct_dict (reg : Registry) (class_name : String)
    (substruct_dict : SRecord) : Except Err (RVClass × Registry) :=
  match reject_unavailable_subclass_name reg class_name with
  | .error e => .error e
  | .ok () =>
      match reject_bad_subclass_name class_name with
      | .error e => .error e
      | .ok () =>
          match dictGet substruct_dict "dim_names" with
          | some (SVal.vstrs names) =>
              match build_dim_reg names with
              | .error e => .error e
              | .ok dim_reg =>
                  let c := RVClass.named class_name dim_reg
                  .ok (c, dictSet reg class_name c)
          | some (SVal.vint _) => .error .typeErrorDyn
          | none =>
              match dictGet substruct_dict "dim_ct" with
              | some ct =>
                  let c := RVClass.limited class_name ct
                  .ok (c, dictSet reg class_name c)
              | none =>
                  let c := RVClass.plain class_name
                  .ok (c, dictSet reg class_name c)

/-- `ReleVec.import_subclasses_dict` (monkeypatched in): applies
`import_substruct_dict` to every entry, in record order, stopping at the
first failure (entries imported before a failure stay registered). -/
def import_subclasses_dict (reg : Registry) :
    List (String × SRecord) → Except Err Registry
  | [] => .ok reg
  | (nm, rec0) :: rest =>
      match import_substruct_dict reg nm rec0 with
      | .error e => .error e
      | .ok (_, reg1) => import_subclasses_dict reg1 rest

/-- Structural equality of two schema records, ignoring key order. -/
def srecordEquiv (a b : SRecord) : Bool :=
  a.all (fun p => decide (dictGet b p.1 = some p.2)) &&
    b.all (fun p => decide (dictGet a p.1 = some p.2))

/-- Structural equality of two Registry records (schema name -> schema
record), ignoring key order at both levels. -/
def registryRecordEquiv (a b : List (String × SRecord)) : Bool :=
  (a.all fun p =>
    match dictGet b p.1 with
    | some r => srecordEquiv p.2 r
    | none => false) &&
  (b.all fun p =>
    match dictGet a p.1 with
    | some r => srecordEquiv p.2 r
    | none => false)

/-- The naming rule as the specification states it, on a name's characters
(spec side of the comparison for the name-format claim): nonempty, and the
first character is uppercase or an underscore followed by an uppercase
character. -/
def specNameChars : List Char → Bool
  | [] => false
  | c0 :: rest =>
      isUpperA c0 ||
        (decide (c0 = '_') &&
          (match rest with
           | c1 :: _ => isUpperA c1
           | [] => false))

/-- The specification's naming rule on a name. -/
def nameFormatSpec (name : String) : Bool :=
  specNameChars name.toList

/-- The `Named(["a","b","c"])` schema of the named round-trip example, as
`get_specified_subclass("Cn", dim_names=["a","b","c"])` creates it. -/
def cnClass : RVClass := RVClass.named "Cn" [("a", 0), ("b", 1), ("c", 2)]

/-- The dimdict the named round-trip example's vector is built from
(and, identically, the `dimdict` entry of its exported record). -/
def cnDimdict : List (DKey × PyFloat) :=
  [(DKey.ks "a", PyFloat.finite (1/100)),
   (DKey.ks "b", PyFloat.finite (11/100)),
   (DKey.ks "c", PyFloat.finite (21/100))]

/-- The `sparse_vec` of the named round-trip example's vector. -/
def cnSv : SparseVec :=
  [(0, PyFloat.finite (1/100)),
   (1, PyFloat.finite (11/100)),
   (2, PyFloat.finite (21/100))]

/-- The Registry record of the registry round-trip claim, with the field
name `dim_count` exactly as the claim writes it. -/
def regRecordDimCount : List (String × SRecord) :=
  [("Ci", [("dim_count", SVal.vint 3)]),
   ("Cn", [("dim_names", SVal.vstrs ["a", "b", "c"])])]

/-- The same Registry record with the field name `dim_ct` the source
actually reads and writes. -/
def regRecordDimCt : List (String × SRecord) :=
  [("Ci", [("dim_ct", SVal.vint 3)]),
   ("Cn", [("dim_names", SVal.vstrs ["a", "b", "c"])])]

theorem dictGet_dictSet {α β : Type} [DecidableEq α]
    (d : List (α × β)) (k : α) (v : β) :
    dictGet (dictSet d k v) k = some v := by
  induction d with
  | nil => simp [dictGet, dictSet]
  | cons p rest ih =>
      by_cases h : p.1 = k <;> simp [dictGet, dictSet, h, ih]

/-- C3: the claim says `normalize()` raises `ZeroMagnitude` exactly when
`magnitude_squared < 1e-6`, is a no-op within `1e-6` of `1.0`, and
otherwise divides by the magnitude leaving `is_normalized()` true.  On the
code, every call to `normalize()` raises `NameError` instead, because the
epsilon is read off the unbound name `MatchVecBase` — in particular on the
claim's vector {0:3.0, 1:4.0}, and on the zero vector {0:0.0} where the
claim expects `ZeroMagnitude` — and every call to `is_normalized()` raises
`NameError` for its unbound bare callee name `equality_threshold`. -/
theorem c3_normalize_raises_nameerror :
    (∀ sv : SparseVec,
      normalize sv = Except.error (Err.nameErrorUndefined "MatchVecBase")) ∧
    normalize [(0, PyFloat.finite 3), (1, PyFloat.finite 4)] =
      Except.error (Err.nameErrorUndefined "MatchVecBase") ∧
    normalize [(0, PyFloat.finite 0)] =
      Except.error (Err.nameErrorUndefined "MatchVecBase") ∧
    (∀ sv : SparseVec,
      is_normalized sv =
        Except.error (Err.nameErrorUndefined "equality_threshold")) :=
  ⟨fun _ => rfl, rfl, rfl, fun _ => rfl⟩

/-- C5 counterexample: a schema-creation call supplying both shape
descriptors (`dim_names=["a"]` and `dim_ct=7`) does not fail and does not
register nothing — it succeeds, builds the named variant from `dim_names`,
and registers it. -/
theorem c5_counterexample :
    get_specified_subclass [] "Cx" (some ["a"]) (some (SVal.vint 7)) =
      Except.ok (RVClass.named "Cx" [("a", 0)],
                 [("Cx", RVClass.named "Cx" [("a", 0)])]) := by rfl

/-- C5 amended: when a call to `get_specified_subclass` supplies more than
one shape descriptor for a fresh, well-formed name, no `AmbiguousShape`
failure occurs: `dim_names` takes precedence, the named schema it describes
is built and registered, and the count descriptor is ignored entirely. -/
theorem c5_amended_dim_names_precedence (reg : Registry) (class_name : String)
    (names : List String) (ct : SVal) (dreg : List (String × Nat))
    (h1 : get_subclass_by_name reg class_name = none)
    (h2 : reject_bad_subclass_name class_name = Except.ok ())
    (h3 : build_dim_reg names = Except.ok dreg) :
    get_specified_subclass reg class_name (some names) (some ct) =
      Except.ok (RVClass.named class_name dreg,
        dictSet reg class_name (RVClass.named class_name dreg)) := by
  simp [get_specified_subclass, h1, h2, h3]

/-- C5 amended, witnessed at a concrete call with both descriptors. -/
theorem c5_amended_witness :
    get_specified_subclass [] "Cy" (some ["a", "b"]) (some (SVal.vint 5)) =
      Except.ok (RVClass.named "Cy" [("a", 0), ("b", 1)],
        [("Cy", RVClass.named "Cy" [("a", 0), ("b", 1)])]) :=
  c5_amended_dim_names_precedence [] "Cy" ["a", "b"] (SVal.vint 5)
    [("a", 0), ("b", 1)] (by rfl) (by rfl) (by rfl)

/-- C6: for a name already registered, `get_specified_subclass` returns the
registered class unchanged and leaves the registry untouched, regardless of
the shape arguments — they are never compared against the existing
definition.  (Registered names always pass the name-format check, since both
registration paths validate before registering; the hypothesis records
that invariant.) -/
theorem c6_existing_returned_unchanged (reg : Registry) (class_name : String)
    (c : RVClass) (dim_names : Option (List String)) (dim_ct : Option SVal)
    (h1 : dictGet reg class_name = some c)
    (h2 : reject_bad_subclass_name class_name = Except.ok ()) :
    get_specified_subclass reg class_name dim_names dim_ct =
      Except.ok (c, reg) := by
  simp [get_specified_subclass, get_subclass_by_name, h1, h2]

/-- C6 witnessed on the claim's example: `get_or_create("Cn",
dim_names=["a","b"])` twice returns the same schema, without error, the
second call leaving the registry unchanged. -/
theorem c6_witness :
    get_specified_subclass [] "Cn" (some ["a", "b"]) none =
      Except.ok (RVClass.named "Cn" [("a", 0), ("b", 1)],
        [("Cn", RVClass.named "Cn" [("a", 0), ("b", 1)])]) ∧
    get_specified_subclass [("Cn", RVClass.named "Cn" [("a", 0), ("b", 1)])]
        "Cn" (some ["a", "b"]) none =
      Except.ok (RVClass.named "Cn" [("a", 0), ("b", 1)],
        [("Cn", RVClass.named "Cn" [("a", 0), ("b", 1)])]) :=
  ⟨by rfl,
   c6_existing_returned_unchanged _ "Cn" _ (some ["a", "b"]) none
     (by rfl) (by rfl)⟩

/-- C7 counterexample: on a negative index, `is_valid_dimidx` does not
signal `InvalidIndex` — it returns `False`, for the base class, a limited
subclass, and a named subclass alike. -/
theorem c7_counterexample :
    is_valid_dimidx RVClass.base (-1) = Except.ok false ∧
    is_valid_dimidx (RVClass.limited "Ci" (SVal.vint 3)) (-1) =
      Except.ok false ∧
    is_valid_dimidx (RVClass.named "Cn" [("a", 0)]) (-1) = Except.ok false ∧
    (∀ e : Err, is_valid_dimidx RVClass.base (-1) ≠ Except.error e) := by
  refine ⟨by rfl, by rfl, by rfl, ?_⟩
  intro e h
  simp [is_valid_dimidx] at h

/-- C7 amended: for every schema variant and every negative index,
`is_valid_dimidx` returns `False` as a value (its only assertion checks
that the index is an int; no error is signaled for a negative one). -/
theorem c7_amended_negative_returns_false (c : RVClass) (dimidx : Int)
    (h : dimidx < 0) :
    is_valid_dimidx c dimidx = Except.ok false := by
  have h0 : ¬ (0 ≤ dimidx) := by omega
  cases c with
  | base => simp [is_valid_dimidx, decide_eq_false h0]
  | plain n => simp [is_valid_dimidx, decide_eq_false h0]
  | limited n ct =>
      cases ct with
      | vint m => simp [is_valid_dimidx, decide_eq_false h0]
      | vstrs l => simp [is_valid_dimidx, h0]
  | named n reg => simp [is_valid_dimidx, decide_eq_false h0]

/-- C7 amended, witnessed at a concrete negative index. -/
theorem c7_amended_witness :
    is_valid_dimidx (RVClass.limited "Ci" (SVal.vint 3)) (-2) =
      Except.ok false :=
  c7_amended_negative_returns_false _ (-2) (by decide)

/-- C8 counterexample: `set_dimval_by_dimidx` with a non-finite value on a
valid index does not fail with `InvalidValue` — NaN and infinity pass its
`isinstance(dimval, float)` assertion and are stored. -/
theorem c8_counterexample :
    set_dimval_by_dimidx RVClass.base [] 0 PyFloat.nan =
      Except.ok [(0, PyFloat.nan)] ∧
    set_dimval_by_dimidx RVClass.base [] 0 PyFloat.inf =
      Except.ok [(0, PyFloat.inf)] := ⟨rfl, rfl⟩

/-- C8 amended: on a valid index, `set_dimval_by_dimidx` stores any float
value — finite or not — without signaling any error; no finiteness check
exists. -/
theorem c8_amended_any_float_stored (c : RVClass) (sv : SparseVec)
    (dimidx : Int) (dimval : PyFloat)
    (h : is_valid_dimidx c dimidx = Except.ok true) :
    set_dimval_by_dimidx c sv dimidx dimval =
      Except.ok (dictSet sv dimidx dimval) := by
  simp [set_dimval_by_dimidx, h]

/-- C8 amended, witnessed with negative infinity on a limited subclass. -/
theorem c8_amended_witness :
    set_dimval_by_dimidx (RVClass.limited "Ci" (SVal.vint 3)) [] 1
        PyFloat.ninf = Except.ok [(1, PyFloat.ninf)] :=
  c8_amended_any_float_stored _ [] 1 PyFloat.ninf (by rfl)

/-- C9: for any class and any index valid under it, `get_dimval_by_dimidx`
returns `0.0` on a vector with no entry at that index, and returns `v`
after `set_dimval_by_dimidx` stored the finite value `v` there. -/
theorem c9_get_set (c : RVClass) (dimidx : Int)
    (h : is_valid_dimidx c dimidx = Except.ok true) :
    (∀ sv : SparseVec, dictGet sv dimidx = none →
      get_dimval_by_dimidx c sv dimidx = Except.ok (PyFloat.finite 0)) ∧
    (∀ (q : ℚ) (sv0 sv1 : SparseVec),
      set_dimval_by_dimidx c sv0 dimidx (PyFloat.finite q) = Except.ok sv1 →
      get_dimval_by_dimidx c sv1 dimidx = Except.ok (PyFloat.finite q)) := by
  constructor
  · intro sv hnone
    simp [get_dimval_by_dimidx, h, hnone]
  · intro q sv0 sv1 hset
    simp [set_dimval_by_dimidx, h] at hset
    subst hset
    simp [get_dimval_by_dimidx, h, dictGet_dictSet]

/-- C9 witnessed at the base class and index 0. -/
theorem c9_witness :
    get_dimval_by_dimidx RVClass.base [] 0 = Except.ok (PyFloat.finite 0) ∧
    get_dimval_by_dimidx RVClass.base [(0, PyFloat.finite 2)] 0 =
      Except.ok (PyFloat.finite 2) := by
  have h := c9_get_set RVClass.base 0 (by rfl)
  exact ⟨h.1 [] (by rfl), h.2 2 [] [(0, PyFloat.finite 2)] (by rfl)⟩

/-- C10: `get_subclass_by_name` returns `None` — without raising — for
every unregistered name, except the literal name "ReleVec", for which it
returns the base class itself; a registered name resolves to its registered
class.  (The return type records that no error is possible.) -/
theorem c10_lookup (reg : Registry) (class_name : String) :
    (dictGet reg class_name = none →
      get_subclass_by_name reg class_name =
        (if class_name = "ReleVec" then some RVClass.base else none)) ∧
    (∀ c : RVClass, dictGet reg class_name = some c →
      get_subclass_by_name reg class_name = some c) := by
  constructor
  · intro h; simp [get_subclass_by_name, h]
  · intro c h; simp [get_subclass_by_name, h]

/-- C10 witnessed: an unregistered name yields `None`, the unregistered
literal "ReleVec" yields the base class, a registered name yields its
class. -/
theorem c10_witness :
    get_subclass_by_name [] "Foo" = none ∧
    get_subclass_by_name [] "ReleVec" = some RVClass.base ∧
    get_subclass_by_name [("Cm", RVClass.plain "Cm")] "Cm" =
      some (RVClass.plain "Cm") := by
  refine ⟨?_, ?_, ?_⟩
  · rw [(c10_lookup [] "Foo").1 (by decide)]; decide
  · rw [(c10_lookup [] "ReleVec").1 (by decide)]; decide
  · exact (c10_lookup [("Cm", RVClass.plain "Cm")] "Cm").2 _ (by decide)

theorem isLowerA_isUpperA_false {c : Char} (h : isLowerA c = true) :
    isUpperA c = false := by
  simp [isLowerA] at h
  simp [isUpperA]
  omega

theorem isDigitA_isUpperA_false {c : Char} (h : isDigitA c = true) :
    isUpperA c = false := by
  simp [isDigitA] at h
  simp [isUpperA]
  omega

theorem reject_ok_iff_spec (l : List Char) :
    (reject_bad_name_chars l = Except.ok () ↔ specNameChars l = true) ∧
    (specNameChars l = false →
      reject_bad_name_chars l =
        Except.error (Err.nameErrorUndefined "SvSubclassNameConventionError")) := by
  cases l with
  | nil => exact ⟨by decide, fun _ => rfl⟩
  | cons c0 rest =>
      by_cases hund : c0 = '_'
      · subst hund
        cases rest with
        | nil => exact ⟨by decide, fun _ => rfl⟩
        | cons c1 rest2 =>
            cases h1 : isUpperA c1 <;>
              simp [reject_bad_name_chars, specNameChars, h1,
                show isLowerA '_' = false from rfl,
                show isDigitA '_' = false from rfl,
                show isUpperA '_' = false from rfl]
      · by_cases hL : isLowerA c0 = true
        · simp [reject_bad_name_chars, specNameChars, hL,
            isLowerA_isUpperA_false hL, hund]
        · by_cases hD : isDigitA c0 = true
          · simp [reject_bad_name_chars, specNameChars,
              Bool.of_not_eq_true hL, hD, isDigitA_isUpperA_false hD, hund]
          · by_cases hU : isUpperA c0 = true
            · simp [reject_bad_name_chars, specNameChars,
                Bool.of_not_eq_true hL, Bool.of_not_eq_true hD, hU]
            · cases rest <;>
                simp [reject_bad_name_chars, specNameChars,
                  Bool.of_not_eq_true hL, Bool.of_not_eq_true hD,
                  Bool.of_not_eq_true hU, hund]

/-- C4: the claim says `validate_name` fails with `InvalidNameFormat` (the
code's `SvSubclassNameConventionError`) for every ill-formed name and
succeeds otherwise.  On the code, the accept/reject boundary behaves as
claimed on the claim's examples — "lower", "", "1X" are rejected, "_Ok" and
"Ok" are accepted — but no rejection ever signals the typed
name-convention exception: every rejecting path raises `NameError` for the
unbound name `SvSubclassNameConventionError`, so the only possible
outcomes of `reject_bad_subclass_name` are success or that `NameError`. -/
theorem c4_rejections_raise_nameerror :
    (∀ name : String,
      reject_bad_subclass_name name = Except.ok () ∨
      reject_bad_subclass_name name =
        Except.error (Err.nameErrorUndefined "SvSubclassNameConventionError")) ∧
    reject_bad_subclass_name "lower" =
      Except.error (Err.nameErrorUndefined "SvSubclassNameConventionError") ∧
    reject_bad_subclass_name "" =
      Except.error (Err.nameErrorUndefined "SvSubclassNameConventionError") ∧
    reject_bad_subclass_name "1X" =
      Except.error (Err.nameErrorUndefined "SvSubclassNameConventionError") ∧
    reject_bad_subclass_name "_Ok" = Except.ok () ∧
    reject_bad_subclass_name "Ok" = Except.ok () := by
  refine ⟨?_, by decide, by decide, by decide, by decide, by decide⟩
  intro name
  cases h : specNameChars name.toList with
  | true => exact Or.inl ((reject_ok_iff_spec name.toList).1.mpr h)
  | false => exact Or.inr ((reject_ok_iff_spec name.toList).2 h)

/-- C1: the named round-trip fails on the code.  Building the
`Named(["a","b","c"])` vector from {"a":0.01, "b":0.11, "c":0.21} succeeds
and reads back `get_dimval_by_dimnam "b" = 0.11`; `export_dict` yields the
expected record; but `import_dict` of that very record — and of every
record — fails, because `reject_bad_instance_dict` type-checks
`class_name` where it means to type-check `dimdict` and so always executes
its raise (which, referencing the unbound inner class
`SvInstanceDictError`, propagates as a `NameError` for that name). -/
theorem c1_import_of_export_always_fails :
    set_vec_by_dimdict cnClass cnDimdict = Except.ok cnSv ∧
    get_dimval_by_dimnam cnClass cnSv "b" =
      Except.ok (PyFloat.finite (11/100)) ∧
    export_dict cnClass cnSv = Except.ok ⟨some "Cn", some cnDimdict⟩ ∧
    import_dict cnClass ⟨some "Cn", some cnDimdict⟩ =
      Except.error (Err.nameErrorUndefined "SvInstanceDictError") ∧
    (∀ (c : RVClass) (d : InstanceDict), ∃ e : Err,
      import_dict c d = Except.error e) := by
  refine ⟨by rfl, by rfl, by rfl, by rfl, ?_⟩
  intro c d
  rcases d with ⟨cn, dd⟩
  cases cn with
  | none => exact ⟨Err.nameErrorUndefined "SvSubclassNameConventionError", rfl⟩
  | some nm =>
      cases h : reject_bad_subclass_name nm with
      | error e =>
          exact ⟨e, by simp [import_dict, reject_bad_instance_dict, h]⟩
      | ok u =>
          cases u
          exact ⟨Err.nameErrorUndefined "SvInstanceDictError",
            by simp [import_dict, reject_bad_instance_dict, h]⟩

/-- C2 counterexample: importing the claim's Registry record — whose
bounded-schema entry is keyed `dim_count` — succeeds, but silently creates
an unembellished subclass for "Ci" (the source only reads `dim_ct`), so the
subsequent export is NOT structurally equal to the imported record. -/
theorem c2_counterexample :
    import_subclasses_dict [] regRecordDimCount =
      Except.ok [("Ci", RVClass.plain "Ci"),
                 ("Cn", RVClass.named "Cn" [("a", 0), ("b", 1), ("c", 2)])] ∧
    registryRecordEquiv regRecordDimCount
      (export_subclasses_dict
        [("Ci", RVClass.plain "Ci"),
         ("Cn", RVClass.named "Cn" [("a", 0), ("b", 1), ("c", 2)])]) =
      false := ⟨by rfl, by rfl⟩

/-- C2 amended: with the source's field name `dim_ct`, importing
{"Ci": {"dim_ct": 3}, "Cn": {"dim_names": ["a","b","c"]}} into an empty
registry succeeds, and exporting the registry yields a Registry record
structurally equal to the imported one (ignoring key order). -/
theorem c2_amended_roundtrip :
    import_subclasses_dict [] regRecordDimCt =
      Except.ok [("Ci", RVClass.limited "Ci" (SVal.vint 3)),
                 ("Cn", RVClass.named "Cn" [("a", 0), ("b", 1), ("c", 2)])] ∧
    registryRecordEquiv regRecordDimCt
      (export_subclasses_dict
        [("Ci", RVClass.limited "Ci" (SVal.vint 3)),
         ("Cn", RVClass.named "Cn" [("a", 0), ("b", 1), ("c", 2)])]) =
      true := ⟨by rfl, by rfl⟩

end Relevec
